import Mathlib

/-!
Verification of the RSI trading-bot core: a shallow embedding of the
backtest simulator (`backtest.py`), the signal evaluator and indicator
column layout (`strategy.py`), and the performance-metric computations of
the dashboard (`streamlit_app.py`), together with theorems settling the
specification's claims about them.

Conventions of the embedding:
* A pandas DataFrame becomes a `DF`: a list of rows plus one boolean per
  column name whose *presence* the code tests (`"Date" in df.columns`
  and so on).  A `Row` carries the numeric value of every column the code
  may read; the value is meaningful only when the matching presence flag
  is set.  Where the code reads a column under either of two spellings
  (`Date`/`date`, `Close`/`close`, `rsi`/`RSI`) a single `Row` field
  holds the value of whichever canonical column the rename step leaves.
* Prices and indicator values are exact rationals, timestamps are
  integers (pandas datetimes are totally ordered; only ordering and
  equality of timestamps matter to the code).
* `raise KeyError(...)` becomes `Except.error`.
-/

/-- One bar of a DataFrame: the timestamp and the numeric value of every
column `backtest.py` or `strategy.py` may read.  Lowercase `ema`, `sma`,
`macd`, `macd_signal` are the columns `apply_indicators` writes; `sma200`,
`macdU`, `signalU` are the values of the distinct columns `"SMA_200"`,
`"MACD"`, `"Signal"` that `backtest.py` looks up. -/
structure Row where
  date : Int
  close : Rat
  rsi : Rat
  ema : Rat
  sma : Rat
  adx : Rat
  macd : Rat
  macd_signal : Rat
  sma200 : Rat
  macdU : Rat
  signalU : Rat
deriving DecidableEq

/-- A DataFrame: which columns are present, plus the rows.  `hasDateU` is
the capitalized header `"Date"`, `hasDateL` the lowercase `"date"`, and
likewise for `Close`/`close` and `rsi`/`RSI`. -/
structure DF where
  hasDateU : Bool
  hasDateL : Bool
  hasCloseU : Bool
  hasCloseL : Bool
  hasRsiL : Bool
  hasRsiU : Bool
  hasHigh : Bool
  hasLow : Bool
  hasAdx : Bool
  hasSMA200 : Bool
  hasMACD : Bool
  hasSignal : Bool
  rows : List Row

/-- The keyword parameters of `backtest` other than the DataFrame and
`force_signal`.  `rsi_period`, `ema_period`, `stop_loss` and
`take_profit` are accepted by the Python signature and threaded through
the recursive fallback call, exactly as in the source. -/
structure Config where
  rsi_period : Nat
  ema_period : Nat
  rsi_buy : Rat
  rsi_sell : Rat
  stop_loss : Rat
  take_profit : Rat
  adx_thresh : Rat
  use_sma : Bool
  use_macd : Bool
  start_date : Option Int
  end_date : Option Int

/-- One emitted trade, as appended to `trades` in `backtest.py`. -/
structure Trade where
  entry_date : Int
  exit_date : Int
  entry_price : Rat
  exit_price : Rat
  return_pct : Rat
deriving DecidableEq

instance {ε α : Type} [DecidableEq ε] [DecidableEq α] : DecidableEq (Except ε α) := fun
  | .ok a, .ok b =>
      if h : a = b then .isTrue (by rw [h]) else .isFalse (by intro hc; cases hc; exact h rfl)
  | .error a, .error b =>
      if h : a = b then .isTrue (by rw [h]) else .isFalse (by intro hc; cases hc; exact h rfl)
  | .ok _, .error _ => .isFalse (by intro hc; cases hc)
  | .error _, .ok _ => .isFalse (by intro hc; cases hc)

/-- The "safe column name handling" block of `backtest.py`: rename
`date`→`Date` when `Date` is absent, `close`→`Close` when `Close` is
absent, `RSI`→`rsi` when `rsi` is absent.  Only column presence changes;
row values are untouched. -/
def canonDF (df : DF) : DF :=
  { df with
    hasDateU := df.hasDateU || df.hasDateL
    hasDateL := df.hasDateU && df.hasDateL
    hasCloseU := df.hasCloseU || df.hasCloseL
    hasCloseL := df.hasCloseU && df.hasCloseL
    hasRsiL := df.hasRsiL || df.hasRsiU
    hasRsiU := df.hasRsiL && df.hasRsiU }

/-- Ordering of rows by the `Date` column. -/
def dateLe (a b : Row) : Prop := a.date ≤ b.date

instance : DecidableRel dateLe := fun a b => inferInstanceAs (Decidable (a.date ≤ b.date))
instance : IsTotal Row dateLe := ⟨fun a b => Int.le_total a.date b.date⟩
instance : IsTrans Row dateLe := ⟨fun _ _ _ h h' => le_trans h h'⟩

/-- `df.sort_values("Date")`: sort the rows by timestamp (any comparison
sort agrees with this on duplicate-free keys). -/
def sortByDate (rows : List Row) : List Row := rows.insertionSort dateLe

/-- The date-range filtering block: keep rows with `Date >= start_date`,
then rows with `Date <= end_date`, each step only when the bound is set. -/
def dateFilter (cfg : Config) (rows : List Row) : List Row :=
  let r1 := match cfg.start_date with
    | some s => rows.filter (fun r => s ≤ r.date)
    | none => rows
  match cfg.end_date with
    | some e => r1.filter (fun r => r.date ≤ e)
    | none => r1

/-- `rsi_cond_buy = df["rsi"] < rsi_buy`, pointwise. -/
def rsi_cond_buy (cfg : Config) (r : Row) : Bool := decide (r.rsi < cfg.rsi_buy)

/-- `rsi_cond_sell = df["rsi"] > rsi_sell`, pointwise. -/
def rsi_cond_sell (cfg : Config) (r : Row) : Bool := decide (cfg.rsi_sell < r.rsi)

/-- The ADX filter series: `df["adx"] > adx_thresh` when `adx_thresh > 0`
and an `adx` column exists, else all-`True`. -/
def adx_cond (c : DF) (cfg : Config) (r : Row) : Bool :=
  if 0 < cfg.adx_thresh ∧ c.hasAdx = true then decide (cfg.adx_thresh < r.adx) else true

/-- The SMA filter series: `df["Close"] > df["SMA_200"]` when `use_sma`
and an `SMA_200` column exists, else all-`True`. -/
def sma_cond (c : DF) (cfg : Config) (r : Row) : Bool :=
  if cfg.use_sma = true ∧ c.hasSMA200 = true then decide (r.sma200 < r.close) else true

/-- The MACD filter series: `df["MACD"] > df["Signal"]` when `use_macd`
and both columns exist, else all-`True`. -/
def macd_cond (c : DF) (cfg : Config) (r : Row) : Bool :=
  if cfg.use_macd = true ∧ c.hasMACD = true ∧ c.hasSignal = true
  then decide (r.signalU < r.macdU) else true

/-- The entry test of the loop body: all four condition series at bar `i`. -/
def entry_sig (c : DF) (cfg : Config) (r : Row) : Bool :=
  rsi_cond_buy cfg r && adx_cond c cfg r && sma_cond c cfg r && macd_cond c cfg r

/-- The exit test of the loop body: sell condition and the same filters. -/
def exit_sig (c : DF) (cfg : Config) (r : Row) : Bool :=
  rsi_cond_sell cfg r && adx_cond c cfg r && sma_cond c cfg r && macd_cond c cfg r

/-- The `for i in range(len(df))` loop of `backtest.py`.  The state is
`position`/`entry_price`/`entry_date`: `none` is `position = None`,
`some (entry_price, entry_date)` is an open `"LONG"` position.  Trades
are appended in emission order. -/
def runLoop (c : DF) (cfg : Config) (force : Bool) : List Row → Option (Rat × Int) → List Trade
  | [], _ => []
  | r :: rest, none =>
      if entry_sig c cfg r || force then runLoop c cfg force rest (some (r.close, r.date))
      else runLoop c cfg force rest none
  | r :: rest, some pos =>
      if exit_sig c cfg r || force then
        { entry_date := pos.2, exit_date := r.date, entry_price := pos.1, exit_price := r.close,
          return_pct := (r.close - pos.1) / pos.1 * 100 } :: runLoop c cfg force rest none
      else runLoop c cfg force rest (some pos)

/-- The `debug_counts` dictionary, in insertion order: each entry counts
the bars of the filtered frame satisfying one condition series. -/
def debug_counts (c : DF) (cfg : Config) (rows : List Row) : List (String × Nat) :=
  [("RSI Buy Matches", rows.countP (fun r => rsi_cond_buy cfg r)),
   ("RSI Sell Matches", rows.countP (fun r => rsi_cond_sell cfg r)),
   ("ADX Matches", rows.countP (fun r => adx_cond c cfg r)),
   ("SMA Matches", rows.countP (fun r => sma_cond c cfg r)),
   ("MACD Matches", rows.countP (fun r => macd_cond c cfg r))]

/-- One pass of `backtest` without the force-signal fallback: rename,
required-column check, sort, date filter, empty-frame early return, then
the loop and the counters. -/
def backtestRun (df : DF) (cfg : Config) (force : Bool) :
    Except String (List Trade × List (String × Nat)) :=
  let c := canonDF df
  if c.hasDateU = false then .error "Missing required column: Date"
  else if c.hasCloseU = false then .error "Missing required column: Close"
  else if c.hasRsiL = false then .error "Missing required column: rsi"
  else
    let rows := dateFilter cfg (sortByDate c.rows)
    if rows.isEmpty then .ok ([], [])
    else .ok (runLoop c cfg force rows none, debug_counts c cfg rows)

/-- The full `backtest` of `backtest.py`, force-signal fallback included:
when the primary pass yields an empty ledger and `force_signal` is off,
the function calls itself on the processed frame with
`force_signal=True`. -/
def backtest (df : DF) (cfg : Config) (force : Bool) :
    Except String (List Trade × List (String × Nat)) :=
  let c := canonDF df
  if c.hasDateU = false then .error "Missing required column: Date"
  else if c.hasCloseU = false then .error "Missing required column: Close"
  else if c.hasRsiL = false then .error "Missing required column: rsi"
  else
    let rows := dateFilter cfg (sortByDate c.rows)
    if rows.isEmpty then .ok ([], [])
    else
      let trades := runLoop c cfg force rows none
      if h : trades.isEmpty ∧ force = false then backtest { c with rows := rows } cfg true
      else .ok (trades, debug_counts c cfg rows)
termination_by (if force then 0 else 1)
decreasing_by simp [h.2]

/-- A row of zeroes, standing in for the out-of-range access default
(`check_signal` only reads real rows: it returns before any access when
fewer than two bars exist). -/
def dummyRow : Row := ⟨0, 0, 0, 0, 0, 0, 0, 0, 0, 0, 0⟩

/-- `check_signal` of `strategy.py`: the per-bar signal evaluator over
the last two rows of an indicator-enriched frame. -/
def check_signal (df : List Row) (rsi_buy rsi_sell adx_thresh : Rat)
    (use_sma use_macd : Bool) : String :=
  if df.length < 2 then "HOLD"
  else
    let row := df.getD (df.length - 1) dummyRow
    let prev := df.getD (df.length - 2) dummyRow
    let rsi_entry := decide (row.rsi < rsi_buy) && decide (row.ema < row.close) &&
      decide (prev.close ≤ prev.ema)
    let exit_signal := decide (rsi_sell < row.rsi) && decide (row.close < row.ema)
    let sma_filter := if use_sma then decide (row.sma < row.close) else true
    let adx_filter := decide (adx_thresh ≤ row.adx)
    let macd_filter := if use_macd then decide (row.macd_signal < row.macd) else true
    if rsi_entry && sma_filter && adx_filter && macd_filter then "BUY"
    else if exit_signal then "SELL"
    else "HOLD"

/-- The column layout `apply_indicators` of `strategy.py` hands back: the
raw lowercase OHLCV headers plus the new `rsi`, `ema`, `sma`, `adx`,
`macd`, `macd_signal` columns.  It creates no column named `SMA_200`,
`MACD` or `Signal`. -/
def enriched_frame (rows : List Row) : DF :=
  { hasDateU := false, hasDateL := true, hasCloseU := false, hasCloseL := true,
    hasRsiL := true, hasRsiU := false, hasHigh := true, hasLow := true,
    hasAdx := true, hasSMA200 := false, hasMACD := false, hasSignal := false,
    rows := rows }

/-- `win_rate = (trades_df['return_pct'] > 0).mean() * 100`: the mean of
the boolean series is the sum of its 0/1 indicators over the length. -/
def win_rate (tl : List Trade) : Rat :=
  ((tl.map (fun t => if 0 < t.return_pct then (1 : Rat) else 0)).sum / (tl.length : Rat)) * 100

/-- `avg_return = trades_df['return_pct'].mean()`. -/
def avg_return (tl : List Trade) : Rat :=
  (tl.map Trade.return_pct).sum / (tl.length : Rat)

/-- `total_return = (1 + trades_df['return_pct'] / 100).prod() - 1`. -/
def total_return (tl : List Trade) : Rat :=
  (tl.map (fun t => 1 + t.return_pct / 100)).prod - 1

/-- Running product with accumulator: the pandas `cumprod`. -/
def cumprodAux : Rat → List Rat → List Rat
  | _, [] => []
  | acc, x :: xs => (acc * x) :: cumprodAux (acc * x) xs

/-- `equity_curve = (1 + trades_df['return_pct'] / 100).cumprod()`. -/
def equity_curve (tl : List Trade) : List Rat :=
  cumprodAux 1 (tl.map (fun t => 1 + t.return_pct / 100))

/-- The four performance outputs of the dashboard's backtest section. -/
structure Metrics where
  win_rate : Rat
  avg_return : Rat
  total_return : Rat
  equity_curve : List Rat
deriving DecidableEq

/-- The metrics branch of `streamlit_app.py`: an empty ledger is reported
as "no trades" (`none`); otherwise the four metrics are computed. -/
def aggregate (tl : List Trade) : Option Metrics :=
  if tl.isEmpty then none
  else some ⟨win_rate tl, avg_return tl, total_return tl, equity_curve tl⟩

/-! ### Basic facts about the preprocessing steps -/

/-- The rows the state machine actually walks: rename, sort, date-filter. -/
def processedRows (df : DF) (cfg : Config) : List Row :=
  dateFilter cfg (sortByDate (canonDF df).rows)

theorem canonDF_rows (df : DF) : (canonDF df).rows = df.rows := rfl

theorem canonDF_update (c : DF) (r : List Row) :
    canonDF { c with rows := r } = { canonDF c with rows := r } := rfl

theorem canonDF_idem (df : DF) : canonDF (canonDF df) = canonDF df := by
  obtain ⟨a, b, c, d, e, f, g, h, i, j, k, l, rs⟩ := df
  cases a <;> cases b <;> cases c <;> cases d <;> cases e <;> cases f <;> rfl

theorem sortByDate_sorted (l : List Row) : List.Sorted dateLe (sortByDate l) :=
  List.sorted_insertionSort dateLe l

theorem sortByDate_of_sorted {l : List Row} (h : List.Sorted dateLe l) : sortByDate l = l :=
  List.Sorted.insertionSort_eq h

theorem dateFilter_pairwise {R : Row → Row → Prop} (cfg : Config) {l : List Row}
    (h : List.Pairwise R l) : List.Pairwise R (dateFilter cfg l) := by
  unfold dateFilter
  cases cfg.start_date <;> cases cfg.end_date <;>
    simp only [] <;> first
      | exact h
      | exact h.filter _
      | exact (h.filter _).filter _

theorem filter_idem (p : Row → Bool) (l : List Row) :
    (l.filter p).filter p = l.filter p :=
  List.filter_eq_self.mpr (fun _ ha => List.of_mem_filter ha)

theorem filter_filter_filter (p q : Row → Bool) (l : List Row) :
    ((l.filter p).filter q).filter p = (l.filter p).filter q :=
  List.filter_eq_self.mpr (fun _ ha => List.of_mem_filter (List.mem_of_mem_filter ha))

theorem dateFilter_idem (cfg : Config) (l : List Row) :
    dateFilter cfg (dateFilter cfg l) = dateFilter cfg l := by
  unfold dateFilter
  cases cfg.start_date <;> cases cfg.end_date <;> simp only []
  · exact filter_idem _ _
  · exact filter_idem _ _
  · rw [filter_filter_filter]
    exact filter_filter_filter _ _ _

theorem processedRows_sorted (df : DF) (cfg : Config) :
    List.Sorted dateLe (processedRows df cfg) :=
  dateFilter_pairwise cfg (sortByDate_sorted _)

theorem processedRows_reprocess (df : DF) (cfg : Config) :
    processedRows { canonDF df with rows := processedRows df cfg } cfg = processedRows df cfg := by
  unfold processedRows
  rw [canonDF_update, canonDF_idem]
  show dateFilter cfg (sortByDate (dateFilter cfg (sortByDate (canonDF df).rows))) = _
  rw [sortByDate_of_sorted (dateFilter_pairwise cfg (sortByDate_sorted _)), dateFilter_idem]

theorem entry_sig_update (c : DF) (r : List Row) (cfg : Config) (x : Row) :
    entry_sig { c with rows := r } cfg x = entry_sig c cfg x := rfl

theorem exit_sig_update (c : DF) (r : List Row) (cfg : Config) (x : Row) :
    exit_sig { c with rows := r } cfg x = exit_sig c cfg x := rfl

theorem runLoop_update (c : DF) (r : List Row) (cfg : Config) (f : Bool) (l : List Row)
    (pos : Option (Rat × Int)) :
    runLoop { c with rows := r } cfg f l pos = runLoop c cfg f l pos := by
  induction l generalizing pos with
  | nil => rfl
  | cons x rest ih =>
    cases pos <;> simp only [runLoop, entry_sig_update, exit_sig_update, ih]

theorem debug_counts_update (c : DF) (r : List Row) (cfg : Config) (rows : List Row) :
    debug_counts { c with rows := r } cfg rows = debug_counts c cfg rows := rfl

/-! ### The fallback recursion unfolds to a two-step pipeline -/

/-- With `force_signal` already set, the fallback guard is dead code and
`backtest` is a single pass. -/
theorem backtest_true_eq (df : DF) (cfg : Config) :
    backtest df cfg true = backtestRun df cfg true := by
  rw [backtest]
  unfold backtestRun
  simp

theorem backtestRun_reprocess (df : DF) (cfg : Config) (f : Bool) :
    backtestRun { canonDF df with rows := processedRows df cfg } cfg f = backtestRun df cfg f := by
  unfold backtestRun
  rw [canonDF_update, canonDF_idem]
  have hrows : dateFilter cfg (sortByDate (processedRows df cfg)) = processedRows df cfg := by
    rw [sortByDate_of_sorted (processedRows_sorted df cfg)]
    exact dateFilter_idem cfg _
  simp only [show ({ canonDF df with rows := processedRows df cfg } : DF).hasDateU
      = (canonDF df).hasDateU from rfl,
    show ({ canonDF df with rows := processedRows df cfg } : DF).hasCloseU
      = (canonDF df).hasCloseU from rfl,
    show ({ canonDF df with rows := processedRows df cfg } : DF).hasRsiL
      = (canonDF df).hasRsiL from rfl,
    show ({ canonDF df with rows := processedRows df cfg } : DF).rows
      = processedRows df cfg from rfl]
  simp only [hrows]
  rw [runLoop_update, debug_counts_update]
  rfl

theorem processedRows_def (df : DF) (cfg : Config) :
    dateFilter cfg (sortByDate (canonDF df).rows) = processedRows df cfg := rfl

theorem backtestRun_eq (df : DF) (cfg : Config) (f : Bool) :
    backtestRun df cfg f =
      if (canonDF df).hasDateU = false then .error "Missing required column: Date"
      else if (canonDF df).hasCloseU = false then .error "Missing required column: Close"
      else if (canonDF df).hasRsiL = false then .error "Missing required column: rsi"
      else if (processedRows df cfg).isEmpty then .ok ([], [])
      else .ok (runLoop (canonDF df) cfg f (processedRows df cfg) none,
        debug_counts (canonDF df) cfg (processedRows df cfg)) := rfl

theorem backtest_unfold (df : DF) (cfg : Config) (f : Bool) :
    backtest df cfg f =
      if (canonDF df).hasDateU = false then .error "Missing required column: Date"
      else if (canonDF df).hasCloseU = false then .error "Missing required column: Close"
      else if (canonDF df).hasRsiL = false then .error "Missing required column: rsi"
      else if (processedRows df cfg).isEmpty then .ok ([], [])
      else if (runLoop (canonDF df) cfg f (processedRows df cfg) none).isEmpty ∧ f = false
        then backtest { canonDF df with rows := processedRows df cfg } cfg true
      else .ok (runLoop (canonDF df) cfg f (processedRows df cfg) none,
        debug_counts (canonDF df) cfg (processedRows df cfg)) := by
  rw [backtest]
  rfl

/-- The recursion of `backtest` is exactly the explicit two-step
pipeline: run once; if that ledger is empty (and the filtered frame was
not) rerun once with the force flag. -/
theorem backtest_pipeline (df : DF) (cfg : Config) :
    backtest df cfg false =
      match backtestRun df cfg false with
      | .error e => .error e
      | .ok (t, counts) =>
          if t = [] ∧ processedRows df cfg ≠ [] then backtestRun df cfg true
          else .ok (t, counts) := by
  by_cases h1 : (canonDF df).hasDateU = false
  · rw [show backtest df cfg false = .error "Missing required column: Date" by
      rw [backtest_unfold, if_pos h1],
      show backtestRun df cfg false = .error "Missing required column: Date" by
      rw [backtestRun_eq, if_pos h1]]
  by_cases h2 : (canonDF df).hasCloseU = false
  · rw [show backtest df cfg false = .error "Missing required column: Close" by
      rw [backtest_unfold, if_neg h1, if_pos h2],
      show backtestRun df cfg false = .error "Missing required column: Close" by
      rw [backtestRun_eq, if_neg h1, if_pos h2]]
  by_cases h3 : (canonDF df).hasRsiL = false
  · rw [show backtest df cfg false = .error "Missing required column: rsi" by
      rw [backtest_unfold, if_neg h1, if_neg h2, if_pos h3],
      show backtestRun df cfg false = .error "Missing required column: rsi" by
      rw [backtestRun_eq, if_neg h1, if_neg h2, if_pos h3]]
  by_cases h4 : (processedRows df cfg).isEmpty = true
  · have h4' : processedRows df cfg = [] := by simpa using h4
    rw [show backtest df cfg false = .ok ([], []) by
      rw [backtest_unfold, if_neg h1, if_neg h2, if_neg h3, if_pos h4],
      show backtestRun df cfg false = .ok ([], []) by
      rw [backtestRun_eq, if_neg h1, if_neg h2, if_neg h3, if_pos h4]]
    show Except.ok ([], []) =
      if ([] : List Trade) = [] ∧ processedRows df cfg ≠ [] then backtestRun df cfg true
      else .ok ([], [])
    rw [if_neg (fun hc => hc.2 h4')]
  · have h4' : processedRows df cfg ≠ [] := by simpa using h4
    rw [show backtestRun df cfg false
        = .ok (runLoop (canonDF df) cfg false (processedRows df cfg) none,
          debug_counts (canonDF df) cfg (processedRows df cfg)) by
      rw [backtestRun_eq, if_neg h1, if_neg h2, if_neg h3, if_neg h4]]
    by_cases h5 : runLoop (canonDF df) cfg false (processedRows df cfg) none = []
    · rw [show backtest df cfg false
          = backtest { canonDF df with rows := processedRows df cfg } cfg true by
        rw [backtest_unfold, if_neg h1, if_neg h2, if_neg h3, if_neg h4,
          if_pos ⟨by simp [h5], rfl⟩]]
      rw [backtest_true_eq, backtestRun_reprocess]
      show backtestRun df cfg true =
        if runLoop (canonDF df) cfg false (processedRows df cfg) none = []
            ∧ processedRows df cfg ≠ [] then backtestRun df cfg true
        else .ok (runLoop (canonDF df) cfg false (processedRows df cfg) none,
          debug_counts (canonDF df) cfg (processedRows df cfg))
      rw [if_pos ⟨h5, h4'⟩]
    · rw [show backtest df cfg false
          = .ok (runLoop (canonDF df) cfg false (processedRows df cfg) none,
            debug_counts (canonDF df) cfg (processedRows df cfg)) by
        rw [backtest_unfold, if_neg h1, if_neg h2, if_neg h3, if_neg h4,
          if_neg (fun hc => h5 (by simpa using hc.1))]]
      show _ =
        if runLoop (canonDF df) cfg false (processedRows df cfg) none = []
            ∧ processedRows df cfg ≠ [] then backtestRun df cfg true
        else .ok (runLoop (canonDF df) cfg false (processedRows df cfg) none,
          debug_counts (canonDF df) cfg (processedRows df cfg))
      rw [if_neg (fun hc => h5 hc.1)]

theorem backtestRun_ok_shape {df : DF} {cfg : Config} {f : Bool} {t : List Trade}
    {counts : List (String × Nat)} (h : backtestRun df cfg f = .ok (t, counts)) :
    (t = [] ∧ counts = []) ∨
      (t = runLoop (canonDF df) cfg f (processedRows df cfg) none ∧
        counts = debug_counts (canonDF df) cfg (processedRows df cfg)) := by
  rw [backtestRun_eq] at h
  split at h
  · cases h
  split at h
  · cases h
  split at h
  · cases h
  split at h
  · cases h
    exact Or.inl ⟨rfl, rfl⟩
  · cases h
    exact Or.inr ⟨rfl, rfl⟩

/-- Every ledger `backtest` can return is either empty or the output of
the loop over the processed rows (with the force flag on or off). -/
theorem backtest_ok_shape {df : DF} {cfg : Config} {force : Bool} {t : List Trade}
    {counts : List (String × Nat)} (h : backtest df cfg force = .ok (t, counts)) :
    t = [] ∨ ∃ f, t = runLoop (canonDF df) cfg f (processedRows df cfg) none := by
  cases force with
  | true =>
    rw [backtest_true_eq] at h
    rcases backtestRun_ok_shape h with ⟨ht, _⟩ | ⟨ht, _⟩
    · exact Or.inl ht
    · exact Or.inr ⟨true, ht⟩
  | false =>
    rw [backtest_pipeline] at h
    rcases hr : backtestRun df cfg false with e | ⟨t', counts'⟩
    · rw [hr] at h
      cases h
    · rw [hr] at h
      simp only [] at h
      split at h
      · rcases backtestRun_ok_shape h with ⟨ht, _⟩ | ⟨ht, _⟩
        · exact Or.inl ht
        · exact Or.inr ⟨true, ht⟩
      · cases h
        rcases backtestRun_ok_shape hr with ⟨ht, _⟩ | ⟨ht, _⟩
        · exact Or.inl ht
        · exact Or.inr ⟨false, ht⟩

/-- When the required columns are present and the filtered frame is
non-empty, `backtest` succeeds and returns the debug counters of the
processed rows (whichever pass produced the ledger). -/
theorem backtest_ok_counts {df : DF} {cfg : Config} (force : Bool)
    (hD : (canonDF df).hasDateU = true) (hC : (canonDF df).hasCloseU = true)
    (hR : (canonDF df).hasRsiL = true) (hne : processedRows df cfg ≠ []) :
    ∃ t, backtest df cfg force = .ok (t, debug_counts (canonDF df) cfg (processedRows df cfg)) := by
  have hD' : ¬((canonDF df).hasDateU = false) := by simp [hD]
  have hC' : ¬((canonDF df).hasCloseU = false) := by simp [hC]
  have hR' : ¬((canonDF df).hasRsiL = false) := by simp [hR]
  have hne' : ¬((processedRows df cfg).isEmpty = true) := by simpa using hne
  have hrun : ∀ f, backtestRun df cfg f
      = .ok (runLoop (canonDF df) cfg f (processedRows df cfg) none,
        debug_counts (canonDF df) cfg (processedRows df cfg)) := by
    intro f
    rw [backtestRun_eq, if_neg hD', if_neg hC', if_neg hR', if_neg hne']
  cases force with
  | true =>
    exact ⟨_, by rw [backtest_true_eq, hrun true]⟩
  | false =>
    rw [backtest_pipeline, hrun false]
    by_cases h5 : runLoop (canonDF df) cfg false (processedRows df cfg) none = []
    · refine ⟨runLoop (canonDF df) cfg true (processedRows df cfg) none, ?_⟩
      show (if _ ∧ _ then _ else _) = _
      rw [if_pos ⟨h5, hne⟩, hrun true]
    · refine ⟨runLoop (canonDF df) cfg false (processedRows df cfg) none, ?_⟩
      show (if _ ∧ _ then _ else _) = _
      rw [if_neg (fun hc => h5 hc.1)]

/-! ### `stop_loss` and `take_profit` never influence the result -/

theorem runLoop_sltp (c : DF) (cfg : Config) (sl tp : Rat) (f : Bool) (l : List Row)
    (pos : Option (Rat × Int)) :
    runLoop c { cfg with stop_loss := sl, take_profit := tp } f l pos = runLoop c cfg f l pos := by
  induction l generalizing pos with
  | nil => rfl
  | cons x rest ih =>
    have he : ∀ y, entry_sig c { cfg with stop_loss := sl, take_profit := tp } y
        = entry_sig c cfg y := fun _ => rfl
    have hx : ∀ y, exit_sig c { cfg with stop_loss := sl, take_profit := tp } y
        = exit_sig c cfg y := fun _ => rfl
    cases pos <;> simp only [runLoop, he, hx, ih]

theorem backtestRun_sltp (df : DF) (cfg : Config) (sl tp : Rat) (f : Bool) :
    backtestRun df { cfg with stop_loss := sl, take_profit := tp } f = backtestRun df cfg f := by
  rw [backtestRun_eq, backtestRun_eq]
  have hp : processedRows df { cfg with stop_loss := sl, take_profit := tp }
      = processedRows df cfg := rfl
  have hd : debug_counts (canonDF df) { cfg with stop_loss := sl, take_profit := tp }
      (processedRows df cfg) = debug_counts (canonDF df) cfg (processedRows df cfg) := rfl
  rw [hp, runLoop_sltp, hd]

theorem backtest_sltp (df : DF) (cfg : Config) (sl tp : Rat) (f : Bool) :
    backtest df { cfg with stop_loss := sl, take_profit := tp } f = backtest df cfg f := by
  cases f with
  | true => rw [backtest_true_eq, backtest_true_eq, backtestRun_sltp]
  | false =>
    rw [backtest_pipeline, backtest_pipeline]
    simp only [backtestRun_sltp,
      show processedRows df { cfg with stop_loss := sl, take_profit := tp }
        = processedRows df cfg from rfl]

/-! ### Concrete frames used to exercise the code -/

/-- A bar with a timestamp, close and RSI value, every other column zero. -/
def mkBar (d : Int) (cl rs : Rat) : Row := ⟨d, cl, rs, 0, 0, 0, 0, 0, 0, 0, 0⟩

/-- Canonical-header frame with only the required columns present. -/
def plainDF (rows : List Row) : DF :=
  { hasDateU := true, hasDateL := false, hasCloseU := true, hasCloseL := false,
    hasRsiL := true, hasRsiU := false, hasHigh := false, hasLow := false,
    hasAdx := false, hasSMA200 := false, hasMACD := false, hasSignal := false,
    rows := rows }

/-- The five-bar series of the spec's stop-loss example: closes
`[100, 102, 101, 98, 105]`, RSI pinned at 50 so no organic signal fires. -/
def dfC1 : DF :=
  plainDF [mkBar 0 100 50, mkBar 1 102 50, mkBar 2 101 50, mkBar 3 98 50, mkBar 4 105 50]

/-- The spec example's configuration: `stop_loss=0.02`, `take_profit=0.03`,
no optional filters, no date range. -/
def cfgC1 : Config :=
  ⟨14, 50, 30, 70, 2/100, 3/100, 0, false, false, none, none⟩

/-! ### Invariants of the loop -/

/-- Walking sorted rows, every emitted trade closes strictly after it
opens, exits happen at row timestamps, entries come from the initial open
position or from row timestamps, and consecutive trades do not overlap. -/
theorem runLoop_inv (c : DF) (cfg : Config) (f : Bool) :
    ∀ (rows : List Row) (pos : Option (Rat × Int)),
      List.Pairwise (fun a b : Row => a.date < b.date) rows →
      (∀ p ∈ pos, ∀ r ∈ rows, p.2 < r.date) →
      (∀ t ∈ runLoop c cfg f rows pos,
          t.entry_date < t.exit_date ∧
          (∃ r ∈ rows, t.exit_date = r.date) ∧
          ((∃ p ∈ pos, t.entry_date = p.2) ∨ ∃ r ∈ rows, t.entry_date = r.date)) ∧
      List.Chain' (fun a b : Trade => a.exit_date ≤ b.entry_date) (runLoop c cfg f rows pos) := by
  intro rows
  induction rows with
  | nil =>
    intro pos _ _
    constructor
    · intro t ht
      simp [runLoop] at ht
    · simp [runLoop]
  | cons r rest ih =>
    intro pos hp hpos
    obtain ⟨hr, hrest⟩ := List.pairwise_cons.mp hp
    cases pos with
    | none =>
      by_cases hc : (entry_sig c cfg r || f) = true
      · rw [show runLoop c cfg f (r :: rest) none = runLoop c cfg f rest (some (r.close, r.date))
            by rw [runLoop, if_pos hc]]
        have hside : ∀ p ∈ some (r.close, r.date), ∀ x ∈ rest, p.2 < x.date := by
          intro p hp' x hx
          rw [Option.mem_def] at hp'
          cases hp'
          exact hr x hx
        obtain ⟨h1, h2⟩ := ih (some (r.close, r.date)) hrest hside
        refine ⟨?_, h2⟩
        intro t ht
        obtain ⟨hlt, ⟨x, hx, hex⟩, hen⟩ := h1 t ht
        refine ⟨hlt, ⟨x, List.mem_cons_of_mem r hx, hex⟩, Or.inr ?_⟩
        rcases hen with ⟨p, hp', hep⟩ | ⟨x', hx', hex'⟩
        · rw [Option.mem_def] at hp'
          cases hp'
          exact ⟨r, List.mem_cons_self r rest, hep⟩
        · exact ⟨x', List.mem_cons_of_mem r hx', hex'⟩
      · rw [show runLoop c cfg f (r :: rest) none = runLoop c cfg f rest none
            by rw [runLoop, if_neg hc]]
        obtain ⟨h1, h2⟩ := ih none hrest (by simp)
        refine ⟨?_, h2⟩
        intro t ht
        obtain ⟨hlt, ⟨x, hx, hex⟩, hen⟩ := h1 t ht
        refine ⟨hlt, ⟨x, List.mem_cons_of_mem r hx, hex⟩, Or.inr ?_⟩
        rcases hen with ⟨p, hp', _⟩ | ⟨x', hx', hex'⟩
        · simp at hp'
        · exact ⟨x', List.mem_cons_of_mem r hx', hex'⟩
    | some p0 =>
      have hed : ∀ x ∈ r :: rest, p0.2 < x.date := hpos p0 (by rw [Option.mem_def])
      by_cases hc : (exit_sig c cfg r || f) = true
      · rw [show runLoop c cfg f (r :: rest) (some p0) =
            ({ entry_date := p0.2, exit_date := r.date, entry_price := p0.1,
               exit_price := r.close,
               return_pct := (r.close - p0.1) / p0.1 * 100 } : Trade)
              :: runLoop c cfg f rest none
            by rw [runLoop, if_pos hc]]
        obtain ⟨h1, h2⟩ := ih none hrest (by simp)
        constructor
        · intro t ht
          rcases List.mem_cons.mp ht with rfl | ht'
          · exact ⟨hed r (List.mem_cons_self r rest), ⟨r, List.mem_cons_self r rest, rfl⟩,
              Or.inl ⟨p0, by rw [Option.mem_def], rfl⟩⟩
          · obtain ⟨hlt, ⟨x, hx, hex⟩, hen⟩ := h1 t ht'
            refine ⟨hlt, ⟨x, List.mem_cons_of_mem r hx, hex⟩, Or.inr ?_⟩
            rcases hen with ⟨p, hp', _⟩ | ⟨x', hx', hex'⟩
            · simp at hp'
            · exact ⟨x', List.mem_cons_of_mem r hx', hex'⟩
        · rw [List.chain'_cons']
          refine ⟨?_, h2⟩
          intro b hb
          have hbmem : b ∈ runLoop c cfg f rest none := List.mem_of_mem_head? hb
          obtain ⟨_, _, hen⟩ := h1 b hbmem
          rcases hen with ⟨p, hp', _⟩ | ⟨x', hx', hex'⟩
          · simp at hp'
          · show r.date ≤ b.entry_date
            rw [hex']
            exact le_of_lt (hr x' hx')
      · rw [show runLoop c cfg f (r :: rest) (some p0) = runLoop c cfg f rest (some p0)
            by rw [runLoop, if_neg hc]]
        have hside : ∀ p ∈ some p0, ∀ x ∈ rest, p.2 < x.date := by
          intro p hp' x hx
          exact hpos p hp' x (List.mem_cons_of_mem r hx)
        obtain ⟨h1, h2⟩ := ih (some p0) hrest hside
        refine ⟨?_, h2⟩
        intro t ht
        obtain ⟨hlt, ⟨x, hx, hex⟩, hen⟩ := h1 t ht
        refine ⟨hlt, ⟨x, List.mem_cons_of_mem r hx, hex⟩, ?_⟩
        rcases hen with ⟨p, hp', hep⟩ | ⟨x', hx', hex'⟩
        · exact Or.inl ⟨p, hp', hep⟩
        · exact Or.inr ⟨x', List.mem_cons_of_mem r hx', hex'⟩

/-- Under the force flag the loop opens on one bar and closes on the
next, unconditionally. -/
theorem runLoop_force_cons (c : DF) (cfg : Config) (r1 r2 : Row) (rest : List Row) :
    runLoop c cfg true (r1 :: r2 :: rest) none =
      ({ entry_date := r1.date, exit_date := r2.date, entry_price := r1.close,
         exit_price := r2.close,
         return_pct := (r2.close - r1.close) / r1.close * 100 } : Trade)
        :: runLoop c cfg true rest none := by
  rw [runLoop, if_pos (by simp), runLoop, if_pos (by simp)]

/-- A forced pass over at least two bars always books a trade. -/
theorem runLoop_force_ne (c : DF) (cfg : Config) :
    ∀ rows : List Row, 2 ≤ rows.length → runLoop c cfg true rows none ≠ [] := by
  intro rows h
  match rows, h with
  | r1 :: r2 :: rest, _ =>
    rw [runLoop_force_cons]
    exact List.cons_ne_nil _ _

/-! ### Facts about the performance metrics -/

/-- Default trade used for out-of-range list reads in statements. -/
def dummyTrade : Trade := ⟨0, 0, 0, 0, 0⟩

theorem sum_indicator_eq_countP (tl : List Trade) :
    (tl.map (fun t => if 0 < t.return_pct then (1 : Rat) else 0)).sum
      = (tl.countP (fun t => decide (0 < t.return_pct)) : Rat) := by
  induction tl with
  | nil => simp
  | cons t rest ih =>
    by_cases h : 0 < t.return_pct
    · simp [List.countP_cons, h, ih]
      ring
    · simp [List.countP_cons, h, ih]

theorem cumprodAux_getD_zero (acc x : Rat) (xs : List Rat) :
    (cumprodAux acc (x :: xs)).getD 0 0 = acc * x := rfl

theorem cumprodAux_getD_succ (xs : List Rat) :
    ∀ (acc : Rat) (i : Nat), i + 1 < xs.length →
      (cumprodAux acc xs).getD (i + 1) 0
        = (cumprodAux acc xs).getD i 0 * xs.getD (i + 1) 1 := by
  induction xs with
  | nil => intro acc i h; simp at h
  | cons x xs ih =>
    intro acc i h
    cases i with
    | zero =>
      cases xs with
      | nil => simp at h
      | cons y ys => rfl
    | succ i =>
      have h' : i + 1 < xs.length := by simpa using h
      show (cumprodAux (acc * x) xs).getD (i + 1) 0 = _
      rw [ih (acc * x) i h']
      rfl

theorem cumprodAux_getLastD (xs : List Rat) :
    ∀ acc : Rat, xs ≠ [] → (cumprodAux acc xs).getLastD 0 = acc * xs.prod := by
  induction xs with
  | nil => intro acc h; exact absurd rfl h
  | cons x xs ih =>
    intro acc _
    cases xs with
    | nil => simp [cumprodAux]
    | cons y ys =>
      have hne : cumprodAux (acc * x) (y :: ys) ≠ [] := by
        rw [show cumprodAux (acc * x) (y :: ys)
          = (acc * x * y) :: cumprodAux (acc * x * y) ys from rfl]
        exact List.cons_ne_nil _ _
      rw [show cumprodAux acc (x :: y :: ys)
          = (acc * x) :: cumprodAux (acc * x) (y :: ys) from rfl]
      rw [List.getLastD_cons]
      rw [show (cumprodAux (acc * x) (y :: ys)).getLastD (acc * x)
          = (cumprodAux (acc * x) (y :: ys)).getLastD 0 from ?_]
      · rw [ih (acc * x) (List.cons_ne_nil y ys), List.prod_cons, List.prod_cons,
          List.prod_cons]
        ring
      · cases hc : cumprodAux (acc * x) (y :: ys) with
        | nil => exact absurd hc hne
        | cons z zs => simp [List.getLastD]

/-! ### Looking up the debug counters -/

theorem debug_lookup_adx (c : DF) (cfg : Config) (rows : List Row) :
    (debug_counts c cfg rows).lookup "ADX Matches"
      = some (rows.countP (fun r => adx_cond c cfg r)) := by
  simp [debug_counts, List.lookup]

theorem debug_lookup_sma (c : DF) (cfg : Config) (rows : List Row) :
    (debug_counts c cfg rows).lookup "SMA Matches"
      = some (rows.countP (fun r => sma_cond c cfg r)) := by
  simp [debug_counts, List.lookup]

theorem debug_lookup_macd (c : DF) (cfg : Config) (rows : List Row) :
    (debug_counts c cfg rows).lookup "MACD Matches"
      = some (rows.countP (fun r => macd_cond c cfg r)) := by
  simp [debug_counts, List.lookup]

/-- The ledger the code produces on the spec's stop-loss example under
force: it books a trade over bars 0-1 and another over bars 2-3. -/
def ledgerC1 : List Trade := [⟨0, 1, 100, 102, 2⟩, ⟨2, 3, 101, 98, -300/101⟩]

/-- The counters of the stop-loss example frame. -/
def countsC1 : List (String × Nat) :=
  [("RSI Buy Matches", 0), ("RSI Sell Matches", 0), ("ADX Matches", 5),
   ("SMA Matches", 5), ("MACD Matches", 5)]

theorem dfC1_eval : backtest dfC1 cfgC1 true = .ok (ledgerC1, countsC1) := by
  rw [backtest_true_eq, backtestRun_eq]
  norm_num [dfC1, cfgC1, plainDF, mkBar, canonDF, processedRows, sortByDate, dateFilter,
    List.insertionSort, List.orderedInsert, dateLe, runLoop, entry_sig, exit_sig,
    rsi_cond_buy, rsi_cond_sell, adx_cond, sma_cond, macd_cond, debug_counts,
    List.countP_cons, List.countP_nil, ledgerC1, countsC1]

/-- C1: the claimed stop-loss/take-profit exit rule does not exist in the
code.  `backtest` never reads `stop_loss` or `take_profit` (the result is
invariant under changing them), and on the spec's five-bar example
(closes 100, 102, 101, 98, 105, entry forced at bar 0) it books trades
over bars 0-1 and 2-3 — the claimed stop-loss Trade with entry 100 and
exit 98 never appears. -/
theorem C1_stop_target_ignored :
    (∀ (df : DF) (cfg : Config) (sl tp : Rat) (f : Bool),
      backtest df { cfg with stop_loss := sl, take_profit := tp } f = backtest df cfg f) ∧
    backtest dfC1 cfgC1 true = .ok (ledgerC1, countsC1) ∧
    ∀ t ∈ ledgerC1, ¬(t.entry_price = 100 ∧ t.exit_price = 98) := by
  refine ⟨backtest_sltp, dfC1_eval, ?_⟩
  intro t ht
  rw [ledgerC1] at ht
  rcases List.mem_cons.mp ht with rfl | ht'
  · rintro ⟨-, h⟩
    norm_num at h
  rcases List.mem_cons.mp ht' with rfl | ht''
  · rintro ⟨h, -⟩
    norm_num at h
  · cases ht''

/-- Two-bar frame whose first bar satisfies the RSI entry threshold while
its close (100) sits below its EMA (200): no bullish crossover state is
possible there, yet the simulator enters at bar 0. -/
def dfC2 : DF := plainDF
  [⟨0, 100, 20, 200, 0, 0, 0, 0, 0, 0, 0⟩, ⟨1, 90, 80, 200, 0, 0, 0, 0, 0, 0, 0⟩]

/-- C2: the simulator's entry condition has no EMA-crossover component —
`backtest` never reads any `ema` column (`ema_period` is dead).  With
`force_signal` off it enters at bar 0 of `dfC2` on the RSI threshold
alone, although close(0) < ema(0), so no bullish crossover holds there. -/
theorem C2_entry_without_crossover :
    backtest dfC2 cfgC1 false
      = .ok ([⟨0, 1, 100, 90, -10⟩],
        [("RSI Buy Matches", 1), ("RSI Sell Matches", 1), ("ADX Matches", 2),
         ("SMA Matches", 2), ("MACD Matches", 2)]) ∧
    (dfC2.rows.getD 0 dummyRow).close < (dfC2.rows.getD 0 dummyRow).ema := by
  constructor
  · rw [backtest_pipeline, backtestRun_eq]
    norm_num [backtestRun_eq, dfC2, cfgC1, plainDF, canonDF, processedRows, sortByDate,
      dateFilter, List.insertionSort, List.orderedInsert, dateLe, runLoop, entry_sig,
      exit_sig, rsi_cond_buy, rsi_cond_sell, adx_cond, sma_cond, macd_cond, debug_counts,
      List.countP_cons, List.countP_nil]
  · norm_num [dfC2, plainDF, dummyRow]

/-- Four-bar frame with an `SMA_200` column.  Bar 1 satisfies the spec's
exit condition (RSI 80 > 70 and close 95 < EMA 110) but fails the SMA
filter (95 < 150); bar 3 satisfies both. -/
def dfC3 : DF :=
  { plainDF
      [⟨0, 100, 20, 90, 0, 0, 0, 0, 50, 0, 0⟩,
       ⟨1, 95, 80, 110, 150, 0, 0, 0, 150, 0, 0⟩,
       ⟨2, 96, 50, 100, 0, 0, 0, 0, 50, 0, 0⟩,
       ⟨3, 97, 80, 120, 0, 0, 0, 0, 10, 0, 0⟩] with
    hasSMA200 := true }

/-- `cfgC1` with the SMA filter switched on. -/
def cfgC3 : Config := ⟨14, 50, 30, 70, 2/100, 3/100, 0, true, false, none, none⟩

/-- C3: simulator exits ARE gated by the optional filters.  On `dfC3` the
spec's exit condition holds at bar 1, and `check_signal` answers SELL
there under either SMA-filter setting; but the simulator with
`use_sma = true` holds until bar 3 while with `use_sma = false` it exits
at bar 1 — toggling the filter changes where the exit fires.  (The code's
exit also never compares close with EMA.) -/
theorem C3_exits_filtered :
    backtest dfC3 cfgC3 false
      = .ok ([⟨0, 3, 100, 97, -3⟩],
        [("RSI Buy Matches", 1), ("RSI Sell Matches", 2), ("ADX Matches", 4),
         ("SMA Matches", 3), ("MACD Matches", 4)]) ∧
    backtest dfC3 cfgC1 false
      = .ok ([⟨0, 1, 100, 95, -5⟩],
        [("RSI Buy Matches", 1), ("RSI Sell Matches", 2), ("ADX Matches", 4),
         ("SMA Matches", 4), ("MACD Matches", 4)]) ∧
    cfgC3 = { cfgC1 with use_sma := true } ∧
    70 < (dfC3.rows.getD 1 dummyRow).rsi ∧
    (dfC3.rows.getD 1 dummyRow).close < (dfC3.rows.getD 1 dummyRow).ema ∧
    check_signal (dfC3.rows.take 2) 30 70 0 true false = "SELL" ∧
    check_signal (dfC3.rows.take 2) 30 70 0 false false = "SELL" := by
  refine ⟨?_, ?_, rfl, ?_, ?_, ?_, ?_⟩
  · rw [backtest_pipeline, backtestRun_eq]
    norm_num [backtestRun_eq, dfC3, cfgC3, plainDF, canonDF, processedRows, sortByDate,
      dateFilter, List.insertionSort, List.orderedInsert, dateLe, runLoop, entry_sig,
      exit_sig, rsi_cond_buy, rsi_cond_sell, adx_cond, sma_cond, macd_cond, debug_counts,
      List.countP_cons, List.countP_nil]
  · rw [backtest_pipeline, backtestRun_eq]
    norm_num [backtestRun_eq, dfC3, cfgC1, plainDF, canonDF, processedRows, sortByDate,
      dateFilter, List.insertionSort, List.orderedInsert, dateLe, runLoop, entry_sig,
      exit_sig, rsi_cond_buy, rsi_cond_sell, adx_cond, sma_cond, macd_cond, debug_counts,
      List.countP_cons, List.countP_nil]
  · norm_num [dfC3, plainDF, dummyRow]
  · norm_num [dfC3, plainDF, dummyRow]
  · norm_num [check_signal, dfC3, plainDF, dummyRow, List.getD]
  · norm_num [check_signal, dfC3, plainDF, dummyRow, List.getD]

/-- Two bars in the exact column layout `apply_indicators` produces:
engine `sma` is 150 (above both closes), engine `macd` is -5 (below its
signal 5). -/
def dfC4 : DF := enriched_frame
  [⟨0, 100, 20, 0, 150, 50, -5, 5, 0, 0, 0⟩,
   ⟨1, 110, 80, 0, 150, 50, -5, 5, 0, 0, 0⟩]

/-- `cfgC1` with both optional filters switched on. -/
def cfgC4 : Config := ⟨14, 50, 30, 70, 2/100, 3/100, 0, true, true, none, none⟩

/-- C4: the filters do not operate on the fields the Indicator Engine
populates.  `backtest` looks for columns `SMA_200`, `MACD`, `Signal`,
which `apply_indicators` (writing `sma`, `macd`, `macd_signal`) never
creates, so on an engine-enriched frame both enabled filters pass
vacuously: the simulator enters at bar 0 although close(0) < sma(0) and
macd(0) < macd_signal(0), and both DebugCounts entries equal the bar
count instead of counting their predicates. -/
theorem C4_engine_columns_mismatch :
    backtest dfC4 cfgC4 false
      = .ok ([⟨0, 1, 100, 110, 10⟩],
        [("RSI Buy Matches", 1), ("RSI Sell Matches", 1), ("ADX Matches", 2),
         ("SMA Matches", 2), ("MACD Matches", 2)]) ∧
    dfC4.hasSMA200 = false ∧ dfC4.hasMACD = false ∧ dfC4.hasSignal = false ∧
    ¬((dfC4.rows.getD 0 dummyRow).sma < (dfC4.rows.getD 0 dummyRow).close) ∧
    ¬((dfC4.rows.getD 0 dummyRow).macd_signal < (dfC4.rows.getD 0 dummyRow).macd) := by
  refine ⟨?_, rfl, rfl, rfl, ?_, ?_⟩
  · rw [backtest_pipeline, backtestRun_eq]
    norm_num [backtestRun_eq, dfC4, cfgC4, enriched_frame, canonDF, processedRows,
      sortByDate, dateFilter, List.insertionSort, List.orderedInsert, dateLe, runLoop,
      entry_sig, exit_sig, rsi_cond_buy, rsi_cond_sell, adx_cond, sma_cond, macd_cond,
      debug_counts, List.countP_cons, List.countP_nil]
  · norm_num [dfC4, enriched_frame, dummyRow]
  · norm_num [dfC4, enriched_frame, dummyRow]

/-- One-bar frame with no organic signal: the primary pass books nothing
and the forced rerun, having only an entry bar, books nothing either. -/
def dfC5 : DF := plainDF [mkBar 0 100 50]

/-- Two-bar frame with no organic signal, so only the forced rerun
trades. -/
def dfC5W : DF := plainDF [mkBar 0 100 50, mkBar 1 101 50]

/-- C5 counterexample: on a one-bar series the primary run yields zero
trades and the forced rerun's ledger is empty too, so `backtest` returns
an empty ledger — refuting "returns that forced run's non-empty
ledger". -/
theorem C5_counterexample :
    backtest dfC5 cfgC1 false
      = .ok ([], [("RSI Buy Matches", 0), ("RSI Sell Matches", 0), ("ADX Matches", 1),
        ("SMA Matches", 1), ("MACD Matches", 1)]) := by
  rw [backtest_pipeline, backtestRun_eq]
  norm_num [backtestRun_eq, dfC5, cfgC1, plainDF, mkBar, canonDF, processedRows, sortByDate,
    dateFilter, List.insertionSort, List.orderedInsert, dateLe, runLoop, entry_sig,
    exit_sig, rsi_cond_buy, rsi_cond_sell, adx_cond, sma_cond, macd_cond, debug_counts,
    List.countP_cons, List.countP_nil]

/-- C5 (amended): a forced run never recurses; a primary ledger with at
least one trade is returned unchanged; an empty primary ledger on a
non-empty filtered frame is answered by exactly one forced rerun, whose
ledger is returned; and that forced ledger is non-empty whenever the
filtered frame has at least two bars. -/
theorem C5_fallback (df : DF) (cfg : Config) (t : List Trade) (counts : List (String × Nat)) :
    (backtest df cfg true = backtestRun df cfg true) ∧
    (backtestRun df cfg false = .ok (t, counts) → t ≠ [] →
      backtest df cfg false = .ok (t, counts)) ∧
    (backtestRun df cfg false = .ok (t, counts) → t = [] → processedRows df cfg ≠ [] →
      backtest df cfg false = backtestRun df cfg true) ∧
    (2 ≤ (processedRows df cfg).length →
      ∀ ft fc, backtestRun df cfg true = .ok (ft, fc) → ft ≠ []) := by
  refine ⟨backtest_true_eq df cfg, ?_, ?_, ?_⟩
  · intro h hne
    rw [backtest_pipeline, h]
    show (if _ ∧ _ then _ else _) = _
    rw [if_neg (fun hc => hne hc.1)]
  · intro h he hrows
    rw [backtest_pipeline, h]
    show (if _ ∧ _ then _ else _) = _
    rw [if_pos ⟨he, hrows⟩]
  · intro hlen ft fc h
    rw [backtestRun_eq] at h
    split at h
    · cases h
    split at h
    · cases h
    split at h
    · cases h
    split at h
    · rename_i hemp
      rw [List.isEmpty_iff] at hemp
      rw [hemp] at hlen
      simp at hlen
    · cases h
      exact runLoop_force_ne _ _ _ hlen

theorem C5_fallback_witness :
    backtest dfC5W cfgC1 false = backtestRun dfC5W cfgC1 true ∧
    ∀ ft fc, backtestRun dfC5W cfgC1 true = .ok (ft, fc) → ft ≠ [] := by
  have hrun : backtestRun dfC5W cfgC1 false
      = .ok ([], [("RSI Buy Matches", 0), ("RSI Sell Matches", 0), ("ADX Matches", 2),
        ("SMA Matches", 2), ("MACD Matches", 2)]) := by
    rw [backtestRun_eq]
    norm_num [dfC5W, cfgC1, plainDF, mkBar, canonDF, processedRows, sortByDate, dateFilter,
      List.insertionSort, List.orderedInsert, dateLe, runLoop, entry_sig, exit_sig,
      rsi_cond_buy, rsi_cond_sell, adx_cond, sma_cond, macd_cond, debug_counts,
      List.countP_cons, List.countP_nil]
  have hlen : 2 ≤ (processedRows dfC5W cfgC1).length := by
    norm_num [dfC5W, cfgC1, plainDF, mkBar, processedRows, canonDF, sortByDate, dateFilter,
      List.insertionSort, List.orderedInsert, dateLe]
  have hne : processedRows dfC5W cfgC1 ≠ [] := by
    intro hc
    rw [hc] at hlen
    simp at hlen
  exact ⟨(C5_fallback dfC5W cfgC1 [] _).2.2.1 hrun rfl hne,
    (C5_fallback dfC5W cfgC1 [] []).2.2.2 hlen⟩

theorem bool_ne_false {b : Bool} (h : ¬(b = false)) : b = true := by
  cases b
  · exact absurd rfl h
  · rfl

/-- Helper for C6: with the three required columns present (under either
header spelling) `backtest` cannot fail. -/
theorem backtest_no_error (df : DF) (cfg : Config) (force : Bool)
    (hD : (canonDF df).hasDateU = true) (hC : (canonDF df).hasCloseU = true)
    (hR : (canonDF df).hasRsiL = true) :
    ∃ p, backtest df cfg force = .ok p := by
  by_cases hne : processedRows df cfg = []
  · refine ⟨([], []), ?_⟩
    rw [backtest_unfold, if_neg (by simp [hD]), if_neg (by simp [hC]), if_neg (by simp [hR]),
      if_pos (by simp [hne])]
  · obtain ⟨tr, htr⟩ := backtest_ok_counts force hD hC hR hne
    exact ⟨_, htr⟩

/-- C6 (amended): after header normalization the simulator fails (with a
missing-column error) iff one of `Date`/`date`, `Close`/`close`,
`rsi`/`RSI` is absent — `high`/`low` are never required, ADX in use or
not; and with the required columns present a date filter leaving zero
bars returns an empty ledger and empty counts without raising. -/
theorem C6_required_columns (df : DF) (cfg : Config) (force : Bool) :
    ((∃ e, backtest df cfg force = .error e) ↔
      ((df.hasDateU || df.hasDateL) = false ∨ (df.hasCloseU || df.hasCloseL) = false ∨
        (df.hasRsiL || df.hasRsiU) = false)) ∧
    ((df.hasDateU || df.hasDateL) = true → (df.hasCloseU || df.hasCloseL) = true →
      (df.hasRsiL || df.hasRsiU) = true → processedRows df cfg = [] →
      backtest df cfg force = .ok ([], [])) := by
  have hD : (canonDF df).hasDateU = (df.hasDateU || df.hasDateL) := rfl
  have hC : (canonDF df).hasCloseU = (df.hasCloseU || df.hasCloseL) := rfl
  have hR : (canonDF df).hasRsiL = (df.hasRsiL || df.hasRsiU) := rfl
  constructor
  · constructor
    · rintro ⟨e, he⟩
      by_contra hno
      push_neg at hno
      obtain ⟨h1, h2, h3⟩ := hno
      obtain ⟨p, hp⟩ := backtest_no_error df cfg force
        (by rw [hD]; exact bool_ne_false h1) (by rw [hC]; exact bool_ne_false h2)
        (by rw [hR]; exact bool_ne_false h3)
      rw [hp] at he
      cases he
    · intro h
      by_cases h1 : (canonDF df).hasDateU = false
      · exact ⟨_, by rw [backtest_unfold, if_pos h1]⟩
      by_cases h2 : (canonDF df).hasCloseU = false
      · exact ⟨_, by rw [backtest_unfold, if_neg h1, if_pos h2]⟩
      by_cases h3 : (canonDF df).hasRsiL = false
      · exact ⟨_, by rw [backtest_unfold, if_neg h1, if_neg h2, if_pos h3]⟩
      · exfalso
        rw [hD] at h1
        rw [hC] at h2
        rw [hR] at h3
        rcases h with h | h | h
        · exact h1 h
        · exact h2 h
        · exact h3 h
  · intro h1 h2 h3 hrows
    rw [backtest_unfold, if_neg (by rw [hD]; simp [h1]), if_neg (by rw [hC]; simp [h2]),
      if_neg (by rw [hR]; simp [h3]), if_pos (by simp [hrows])]

theorem C6_required_columns_witness :
    backtest (plainDF []) cfgC1 false = .ok ([], []) ∧
    (∃ e, backtest { plainDF [] with hasRsiL := false } cfgC1 false = .error e) := by
  constructor
  · exact (C6_required_columns (plainDF []) cfgC1 false).2 rfl rfl rfl rfl
  · exact (C6_required_columns { plainDF [] with hasRsiL := false } cfgC1 false).1.mpr
      (Or.inr (Or.inr rfl))

/-- One-bar frame that declares an `adx` column but no `high`/`low`
columns, used with an active ADX threshold. -/
def dfC6 : DF := { plainDF [mkBar 0 100 50] with hasAdx := true }

/-- Configuration with the ADX filter active (threshold 25). -/
def cfgC6 : Config := ⟨14, 50, 30, 70, 2/100, 3/100, 25, false, false, none, none⟩

/-- C6 counterexample: ADX is in use (threshold 25 > 0, `adx` column
present) and `high`/`low` are absent, yet the simulator succeeds — it
never checks `high`/`low`, refuting the claimed "fails iff ... high/low
when ADX is used". -/
theorem C6_counterexample :
    backtest dfC6 cfgC6 false
      = .ok ([], [("RSI Buy Matches", 0), ("RSI Sell Matches", 0), ("ADX Matches", 0),
        ("SMA Matches", 1), ("MACD Matches", 1)]) ∧
    dfC6.hasHigh = false ∧ dfC6.hasLow = false ∧ 0 < cfgC6.adx_thresh := by
  refine ⟨?_, rfl, rfl, by norm_num [cfgC6]⟩
  rw [backtest_pipeline, backtestRun_eq]
  norm_num [backtestRun_eq, dfC6, cfgC6, plainDF, mkBar, canonDF, processedRows, sortByDate,
    dateFilter, List.insertionSort, List.orderedInsert, dateLe, runLoop, entry_sig,
    exit_sig, rsi_cond_buy, rsi_cond_sell, adx_cond, sma_cond, macd_cond, debug_counts,
    List.countP_cons, List.countP_nil]

/-- C7: on input with strictly increasing timestamps, every emitted
trade closes strictly after it opens, and consecutive trades do not
overlap (the exit of each trade is no later than the entry of the next) —
the ledger-level image of "at most one Long position open at any
simulated timestamp", which holds by replay since the machine keeps a
single optional position. -/
theorem C7_single_position (df : DF) (cfg : Config) (force : Bool) (trades : List Trade)
    (counts : List (String × Nat))
    (hsorted : List.Pairwise (fun a b : Row => a.date < b.date) df.rows)
    (h : backtest df cfg force = .ok (trades, counts)) :
    (∀ t ∈ trades, t.entry_date < t.exit_date) ∧
    List.Chain' (fun a b : Trade => a.exit_date ≤ b.entry_date) trades := by
  rcases backtest_ok_shape h with rfl | ⟨f, rfl⟩
  · exact ⟨fun t ht => absurd ht (List.not_mem_nil t), List.chain'_nil⟩
  · have hrows : List.Pairwise (fun a b : Row => a.date < b.date) (processedRows df cfg) := by
      apply dateFilter_pairwise
      rw [canonDF_rows, sortByDate_of_sorted (hsorted.imp (fun hab => le_of_lt hab))]
      exact hsorted
    obtain ⟨h1, h2⟩ := runLoop_inv (canonDF df) cfg f (processedRows df cfg) none hrows
      (by simp)
    exact ⟨fun t ht => (h1 t ht).1, h2⟩

theorem C7_single_position_witness :
    (∀ t ∈ ledgerC1, t.entry_date < t.exit_date) ∧
    List.Chain' (fun a b : Trade => a.exit_date ≤ b.entry_date) ledgerC1 :=
  C7_single_position dfC1 cfgC1 true ledgerC1 countsC1 (by decide) dfC1_eval

/-- C8: the Signal Evaluator answers HOLD on fewer than two bars; on a
two-bar enriched input with a bullish crossover (previous close at or
below its EMA, current close above its EMA), current RSI under the buy
threshold, SMA/MACD filters off and the ADX threshold at 0 (the ADX test
is always evaluated, so a non-negative ADX value is needed), it answers
BUY; flipping the crossover direction (previous close above its EMA)
makes it answer HOLD whatever the filters. -/
theorem C8_check_signal :
    (∀ (df : List Row) (b s a : Rat) (u1 u2 : Bool),
      df.length < 2 → check_signal df b s a u1 u2 = "HOLD") ∧
    (∀ (prev cur : Row) (b s : Rat),
      prev.close ≤ prev.ema → cur.ema < cur.close → cur.rsi < b → 0 ≤ cur.adx →
      check_signal [prev, cur] b s 0 false false = "BUY") ∧
    (∀ (prev cur : Row) (b s a : Rat) (u1 u2 : Bool),
      prev.ema < prev.close → cur.ema < cur.close →
      check_signal [prev, cur] b s a u1 u2 = "HOLD") := by
  refine ⟨?_, ?_, ?_⟩
  · intro df b s a u1 u2 h
    rw [check_signal, if_pos h]
  · intro prev cur b s hcross hema hrsi hadx
    have h1 : ¬([prev, cur].length < 2) := by norm_num
    rw [check_signal, if_neg h1]
    simp only [List.length_cons, List.length_nil, List.getD]
    norm_num [hcross, hema, hrsi, hadx]
  · intro prev cur b s a u1 u2 hflip hema
    have h1 : ¬([prev, cur].length < 2) := by norm_num
    have hnc : ¬(prev.close ≤ prev.ema) := not_le.mpr hflip
    have hnx : ¬(cur.close < cur.ema) := not_lt.mpr (le_of_lt hema)
    rw [check_signal, if_neg h1]
    simp only [List.length_cons, List.length_nil, List.getD]
    norm_num [hnc, hnx]

theorem C8_check_signal_witness :
    check_signal [] 30 70 20 false false = "HOLD" ∧
    check_signal [⟨0, 100, 50, 100, 0, 0, 0, 0, 0, 0, 0⟩,
      ⟨1, 110, 25, 105, 0, 5, 0, 0, 0, 0, 0⟩] 30 70 0 false false = "BUY" ∧
    check_signal [⟨0, 100, 50, 90, 0, 0, 0, 0, 0, 0, 0⟩,
      ⟨1, 110, 25, 105, 0, 5, 0, 0, 0, 0, 0⟩] 30 70 20 true true = "HOLD" :=
  ⟨C8_check_signal.1 [] 30 70 20 false false (by norm_num),
   C8_check_signal.2.1 _ _ 30 70 (by norm_num) (by norm_num) (by norm_num) (by norm_num),
   C8_check_signal.2.2 _ _ 30 70 20 true true (by norm_num) (by norm_num)⟩

/-- C9 counterexample: the dashboard's `win_rate` is the winning
fraction times 100 (a percentage), not the bare ratio
`count(return_pct > 0) / count(trades)` the claim states: on a single
winning trade it is 100, not 1. -/
theorem C9_counterexample :
    ¬(win_rate [⟨0, 1, 100, 105, 5⟩]
      = ((([⟨0, 1, 100, 105, 5⟩] : List Trade).countP
          (fun t => decide (0 < t.return_pct)) : Rat)
        / (([⟨0, 1, 100, 105, 5⟩] : List Trade).length : Rat))) := by
  norm_num [win_rate, List.countP_cons, List.countP_nil]

/-- C9 (amended): for a non-empty ledger the aggregator reports the four
metrics, with `win_rate` equal to the winning fraction times 100,
`avg_return` the mean of `return_pct`, `total_return` the compounded
product minus one, and the equity curve obeying
`equity[i] = equity[i-1] * (1 + return_pct[i]/100)` with final point
`1 + total_return`; the empty ledger is reported as "no trades". -/
theorem C9_metrics (tl : List Trade) (h : tl ≠ []) :
    aggregate tl = some ⟨win_rate tl, avg_return tl, total_return tl, equity_curve tl⟩ ∧
    win_rate tl = ((tl.countP (fun t => decide (0 < t.return_pct)) : Rat)
      / (tl.length : Rat)) * 100 ∧
    avg_return tl = (tl.map Trade.return_pct).sum / (tl.length : Rat) ∧
    total_return tl = (tl.map (fun t => 1 + t.return_pct / 100)).prod - 1 ∧
    (∀ i : Nat, i + 1 < tl.length →
      (equity_curve tl).getD (i + 1) 0
        = (equity_curve tl).getD i 0 * (1 + (tl.getD (i + 1) dummyTrade).return_pct / 100)) ∧
    (equity_curve tl).getLastD 0 = 1 + total_return tl ∧
    aggregate [] = none := by
  refine ⟨?_, ?_, rfl, rfl, ?_, ?_, rfl⟩
  · rw [aggregate, if_neg (by simp [h])]
  · rw [win_rate, sum_indicator_eq_countP]
  · intro i hi
    have hi' : i + 1 < (tl.map (fun t => 1 + t.return_pct / 100)).length := by simpa using hi
    rw [equity_curve, cumprodAux_getD_succ _ 1 i hi']
    congr 1
    rw [List.getD_eq_getElem _ _ hi', List.getD_eq_getElem _ _ hi, List.getElem_map]
  · have hm : tl.map (fun t => 1 + t.return_pct / 100) ≠ [] := by
      intro hc
      exact h (List.map_eq_nil_iff.mp hc)
    rw [equity_curve, cumprodAux_getLastD _ 1 hm, total_return]
    ring

theorem C9_metrics_witness :
    aggregate [⟨0, 1, 100, 105, 5⟩]
      = some ⟨win_rate [⟨0, 1, 100, 105, 5⟩], avg_return [⟨0, 1, 100, 105, 5⟩],
          total_return [⟨0, 1, 100, 105, 5⟩], equity_curve [⟨0, 1, 100, 105, 5⟩]⟩ ∧
    (equity_curve [⟨0, 1, 100, 105, 5⟩]).getLastD 0
      = 1 + total_return [⟨0, 1, 100, 105, 5⟩] :=
  ⟨(C9_metrics [⟨0, 1, 100, 105, 5⟩] (by simp)).1,
   (C9_metrics [⟨0, 1, 100, 105, 5⟩] (by simp)).2.2.2.2.2.1⟩

/-- C10: optional indicator columns may be absent without error.  With
the required columns present and a non-empty filtered frame, the
simulator succeeds and returns the counters; if the `adx` column is
missing or the threshold is 0, the ADX condition passes on every bar and
"ADX Matches" equals the bar count; likewise for the SMA filter without
an `SMA_200` column and the MACD filter without `MACD`/`Signal`
columns. -/
theorem C10_absent_optional_columns (df : DF) (cfg : Config) (force : Bool)
    (hD : (df.hasDateU || df.hasDateL) = true) (hC : (df.hasCloseU || df.hasCloseL) = true)
    (hR : (df.hasRsiL || df.hasRsiU) = true) (hne : processedRows df cfg ≠ []) :
    (∃ t, backtest df cfg force
      = .ok (t, debug_counts (canonDF df) cfg (processedRows df cfg))) ∧
    (df.hasAdx = false ∨ cfg.adx_thresh = 0 →
      (∀ r ∈ processedRows df cfg, adx_cond (canonDF df) cfg r = true) ∧
      (debug_counts (canonDF df) cfg (processedRows df cfg)).lookup "ADX Matches"
        = some (processedRows df cfg).length) ∧
    (cfg.use_sma = true → df.hasSMA200 = false →
      (∀ r ∈ processedRows df cfg, sma_cond (canonDF df) cfg r = true) ∧
      (debug_counts (canonDF df) cfg (processedRows df cfg)).lookup "SMA Matches"
        = some (processedRows df cfg).length) ∧
    (cfg.use_macd = true → df.hasMACD = false ∨ df.hasSignal = false →
      (∀ r ∈ processedRows df cfg, macd_cond (canonDF df) cfg r = true) ∧
      (debug_counts (canonDF df) cfg (processedRows df cfg)).lookup "MACD Matches"
        = some (processedRows df cfg).length) := by
  refine ⟨backtest_ok_counts force hD hC hR hne, ?_, ?_, ?_⟩
  · intro hcase
    have hall : ∀ r ∈ processedRows df cfg, adx_cond (canonDF df) cfg r = true := by
      intro r _
      rw [adx_cond]
      rcases hcase with hx | hx
      · rw [if_neg]
        rintro ⟨-, hadx⟩
        rw [show (canonDF df).hasAdx = df.hasAdx from rfl, hx] at hadx
        cases hadx
      · rw [if_neg]
        rintro ⟨hpos, -⟩
        rw [hx] at hpos
        exact lt_irrefl 0 hpos
    refine ⟨hall, ?_⟩
    rw [debug_lookup_adx, List.countP_eq_length.mpr hall]
  · intro hsma hcol
    have hall : ∀ r ∈ processedRows df cfg, sma_cond (canonDF df) cfg r = true := by
      intro r _
      rw [sma_cond, if_neg]
      rintro ⟨-, hcol'⟩
      rw [show (canonDF df).hasSMA200 = df.hasSMA200 from rfl, hcol] at hcol'
      cases hcol'
    refine ⟨hall, ?_⟩
    rw [debug_lookup_sma, List.countP_eq_length.mpr hall]
  · intro hmacd hcol
    have hall : ∀ r ∈ processedRows df cfg, macd_cond (canonDF df) cfg r = true := by
      intro r _
      rw [macd_cond, if_neg]
      rintro ⟨-, hM, hS⟩
      rcases hcol with hx | hx
      · rw [show (canonDF df).hasMACD = df.hasMACD from rfl, hx] at hM
        cases hM
      · rw [show (canonDF df).hasSignal = df.hasSignal from rfl, hx] at hS
        cases hS
    refine ⟨hall, ?_⟩
    rw [debug_lookup_macd, List.countP_eq_length.mpr hall]

theorem C10_absent_optional_columns_witness :
    (∃ t, backtest dfC4 cfgC4 false
      = .ok (t, debug_counts (canonDF dfC4) cfgC4 (processedRows dfC4 cfgC4))) ∧
    (debug_counts (canonDF dfC4) cfgC4 (processedRows dfC4 cfgC4)).lookup "SMA Matches"
      = some (processedRows dfC4 cfgC4).length ∧
    (debug_counts (canonDF dfC4) cfgC4 (processedRows dfC4 cfgC4)).lookup "MACD Matches"
      = some (processedRows dfC4 cfgC4).length := by
  have h := C10_absent_optional_columns dfC4 cfgC4 false rfl rfl rfl (by decide)
  exact ⟨h.1, (h.2.2.1 rfl rfl).2, (h.2.2.2 rfl (Or.inl rfl)).2⟩
